import Mathlib

/-!
Verification development for the browser client of the durable-functions
test-specification generator.

The repository ships three script variants:
  * `script₀` (src/unnamed/part_000): uploader page, silent poll-error policy,
    auto-download on completion;
  * `script₁` (src/unnamed/part_001, first document): uploader page, fatal
    poll-error policy, history-link on completion;
  * history pages: `src/frontend/history.js` (no sort),
    `src/unnamed/part_002` (numeric `seq_number` sort),
    and the second document of `src/unnamed/part_001` (`start_time` sort).

The embedding models each script's module-level state and each handler as an
explicit state-transition function; every network response is passed in as an
explicit argument (the JS `fetch` suspension point).  Browser timers are
modelled by a registry of active timer ids with a fresh-id counter.
-/

namespace Spec2Proof

/-- A single apostrophe character, used to build string constants. -/
def apos : String := "\x27"

/-! ## Browser timer registry -/

/-- The browser's interval-timer registry: the ids of currently active
interval timers, and the next fresh id `setInterval` will hand out. -/
structure TimerSys where
  active : List Nat
  next : Nat
  deriving DecidableEq, Repr

/-- `clearInterval(h)`: the timer with id `h` stops firing. -/
def clearIntervalSys (h : Nat) (t : TimerSys) : TimerSys :=
  { t with active := t.active.erase h }

/-- `setInterval(...)`: a fresh timer id is armed and returned. -/
def setIntervalSys (t : TimerSys) : Nat × TimerSys :=
  (t.next, { active := t.active ++ [t.next], next := t.next + 1 })

/-! ## Uploader page state (src/unnamed/part_000 and part_001)

Module-level variables are `pollingInterval` and `currentJobId`; the other
fields model the DOM elements the scripts write to, plus the trace of
download requests issued and files saved via object URLs. -/

structure UploadState where
  pollingInterval : Option Nat
  currentJobId : Option String
  progressDisplay : Bool
  statusText : String
  uploadBtnDisabled : Bool
  progressWidth : String
  progressTextContent : String
  historyLinkEnabled : Bool
  timers : TimerSys
  downloadRequests : List String
  savedFiles : List String
  deriving DecidableEq, Repr

/-- Outcome of a `fetch`: a non-2xx response carrying the HTTP status code,
a 2xx response carrying the parsed payload, or a thrown exception. -/
inductive FetchOutcome (α : Type) where
  | httpError (status : Nat)
  | ok (data : α)
  | exn (message : String)
  deriving DecidableEq, Repr

/-- The `customStatus` progress snapshot `{stage, message, progress}`. -/
structure CustomStatus where
  stage : String
  message : String
  progress : Int
  deriving DecidableEq, Repr

/-- Body of a successful `/status/{id}` response. -/
structure StatusData where
  runtimeStatus : String
  customStatus : Option CustomStatus
  deriving DecidableEq, Repr

/-- `stopPolling()` (identical in part_000 and part_001): clear the interval
timer if one is armed and null the handle; `currentJobId` is deliberately
not cleared. -/
def stopPolling (s : UploadState) : UploadState :=
  match s.pollingInterval with
  | some h =>
      { s with timers := clearIntervalSys h s.timers, pollingInterval := none }
  | none => s

/-- `startPolling(instanceId)` (identical in part_000 and part_001), the
synchronous part: stop any existing polling, then arm a fresh 10-second
interval timer.  The immediate first `pollStatus` call is an async fetch
whose effects land when its response arrives; they are modelled by applying
`pollStatus₀`/`pollStatus₁` to that response separately. -/
def startPolling (s : UploadState) : UploadState :=
  let s₁ := stopPolling s
  let p := setIntervalSys s₁.timers
  { s₁ with timers := p.2, pollingInterval := some p.1 }

/-- The fixed stage→label table of `updateProgress` (identical in both
uploader variants). -/
def stageMessages : List (String × String) :=
  [("structuring", "📄 設計書を構造化中..."),
   ("diff", "🔍 差分を検知中..."),
   ("perspectives", "💡 テスト観点を抽出中..."),
   ("testspec", "📝 テスト仕様書を生成中..."),
   ("converting", "🔄 成果物を変換中...")]

/-- `stageMessages[stage]`: property lookup in the table object. -/
def lookupStage (stage : String) : Option String :=
  (stageMessages.find? (fun p => p.1 == stage)).map (fun p => p.2)

/-- `updateProgress(data)` (identical in both uploader variants): set the
progress-bar width to `progress` percent (no clamping), resolve the display
label via `stageMessages[stage] || message` (the JS `||` falls through on an
empty-string label as well), and render `"<label> (<progress>%)"`. -/
def updateProgress (d : CustomStatus) (s : UploadState) : UploadState :=
  let labelOrMessage :=
    match lookupStage d.stage with
    | some v => if v = "" then d.message else v
    | none => d.message
  { s with
      progressWidth := toString d.progress ++ "%",
      progressTextContent :=
        labelOrMessage ++ " (" ++ toString d.progress ++ "%)" }

/-! ## Result download: filename resolution (part_000 `downloadResult`,
frontend/history.js `download`) -/

/-- The fixed default filename `'generated_files.zip'`. -/
def defaultFilename : String := "generated_files.zip"

/-- The literal part of the regex `/filename\*=UTF-8''(.+)/`. -/
def cdNeedle : String := "filename*=UTF-8" ++ apos ++ apos

/-- Is `c` a JS line terminator (which `.` does not match)?  Header values
never contain these, but the model keeps the regex semantics. -/
def isLineTerm (c : Char) : Bool := c == '\n' || c == '\r'

/-- If `needle` is a prefix of `cs`, return what follows it. -/
def stripNeedle : List Char → List Char → Option (List Char)
  | [], cs => some cs
  | _ :: _, [] => none
  | n :: ns, c :: cs => if n = c then stripNeedle ns cs else none

/-- Scan every position of the subject, as the regex engine does: at the
first position where `cdNeedle` matches and is followed by at least one
non-terminator character, the capture of `(.+)` is the maximal such run. -/
def captureScan (needle : List Char) : List Char → Option (List Char)
  | [] => none
  | c :: cs =>
      match stripNeedle needle (c :: cs) with
      | some rest =>
          let cap := rest.takeWhile (fun ch => !(isLineTerm ch))
          if cap = [] then captureScan needle cs else some cap
      | none => captureScan needle cs

/-- The capture group of `header.match(/filename\*=UTF-8''(.+)/)`, or `none`
when the regex does not match. -/
def extractCapture (header : String) : Option String :=
  (captureScan cdNeedle.data header.data).map (fun cs => String.mk cs)

/-- Value of a hex digit, as in a `%XX` escape. -/
def hexVal (c : Char) : Option Nat :=
  if 48 ≤ c.toNat ∧ c.toNat ≤ 57 then some (c.toNat - 48)
  else if 65 ≤ c.toNat ∧ c.toNat ≤ 70 then some (c.toNat - 55)
  else if 97 ≤ c.toNat ∧ c.toNat ≤ 102 then some (c.toNat - 87)
  else none

/-- UTF-8 encoding of one character, as a byte list. -/
def utf8EncodeChar (c : Char) : List Nat :=
  let n := c.toNat
  if n < 128 then [n]
  else if n < 2048 then [192 + n / 64, 128 + n % 64]
  else if n < 65536 then [224 + n / 4096, 128 + (n / 64) % 64, 128 + n % 64]
  else [240 + n / 262144, 128 + (n / 4096) % 64, 128 + (n / 64) % 64,
        128 + n % 64]

/-- First half of `decodeURIComponent`: turn the string into a byte
sequence, decoding `%XX` escapes; `none` models a thrown `URIError` on a
malformed escape. -/
def percentDecodeBytes : List Char → Option (List Nat)
  | [] => some []
  | '%' :: a :: b :: rest =>
      match hexVal a, hexVal b with
      | some x, some y =>
          (percentDecodeBytes rest).map (fun bs => (16 * x + y) :: bs)
      | _, _ => none
  | '%' :: _ => none
  | c :: cs => (percentDecodeBytes cs).map (fun bs => utf8EncodeChar c ++ bs)

/-- Second half of `decodeURIComponent`: decode the byte sequence as UTF-8;
`none` models a thrown `URIError` on an invalid sequence.  (Overlong and
surrogate encodings are not rejected; the claims never exercise them.) -/
def utf8DecodeBytes : List Nat → Option (List Char)
  | [] => some []
  | b₀ :: rest =>
      if b₀ < 128 then
        (utf8DecodeBytes rest).map (fun cs => Char.ofNat b₀ :: cs)
      else if b₀ < 192 then none
      else if b₀ < 224 then
        match rest with
        | b₁ :: rest₁ =>
            if 128 ≤ b₁ ∧ b₁ < 192 then
              (utf8DecodeBytes rest₁).map
                (fun cs => Char.ofNat ((b₀ - 192) * 64 + (b₁ - 128)) :: cs)
            else none
        | [] => none
      else if b₀ < 240 then
        match rest with
        | b₁ :: b₂ :: rest₂ =>
            if (128 ≤ b₁ ∧ b₁ < 192) ∧ (128 ≤ b₂ ∧ b₂ < 192) then
              (utf8DecodeBytes rest₂).map
                (fun cs =>
                  Char.ofNat ((b₀ - 224) * 4096 + (b₁ - 128) * 64 +
                    (b₂ - 128)) :: cs)
            else none
        | _ => none
      else if b₀ < 248 then
        match rest with
        | b₁ :: b₂ :: b₃ :: rest₃ =>
            if (128 ≤ b₁ ∧ b₁ < 192) ∧ (128 ≤ b₂ ∧ b₂ < 192) ∧
                (128 ≤ b₃ ∧ b₃ < 192) then
              (utf8DecodeBytes rest₃).map
                (fun cs =>
                  Char.ofNat ((b₀ - 240) * 262144 + (b₁ - 128) * 4096 +
                    (b₂ - 128) * 64 + (b₃ - 128)) :: cs)
            else none
        | _ => none
      else none

/-- `decodeURIComponent`; `none` models a thrown `URIError`. -/
def decodeURIComponent (s : String) : Option String :=
  (percentDecodeBytes s.data).bind
    (fun bs => (utf8DecodeBytes bs).map (fun cs => String.mk cs))

/-- The filename chosen by `downloadResult`/`download` from the optional
`Content-Disposition` header: `'generated_files.zip'` when the header is
absent or the regex does not match, otherwise the percent-decoded capture;
`none` models `decodeURIComponent` throwing (caught by the surrounding
`try`). -/
def downloadFilename (contentDisposition : Option String) : Option String :=
  match contentDisposition with
  | none => some defaultFilename
  | some h =>
      match extractCapture h with
      | none => some defaultFilename
      | some cap => decodeURIComponent cap

/-- `downloadResult(instanceId)` (part_000): issue the GET to
`/download/{instanceId}`; on non-2xx or exception show the failure message;
on success resolve the filename from the `Content-Disposition` header and
save the blob.  The download response's header is the `.ok` payload. -/
def downloadResult (instanceId : String)
    (resp : FetchOutcome (Option String)) (s : UploadState) : UploadState :=
  let s₁ := { s with downloadRequests := s.downloadRequests ++ [instanceId] }
  match resp with
  | .httpError _ => { s₁ with statusText := "ダウンロードに失敗しました" }
  | .exn _ => { s₁ with statusText := "ダウンロードに失敗しました" }
  | .ok cd =>
      match downloadFilename cd with
      | some fn => { s₁ with savedFiles := s₁.savedFiles ++ [fn] }
      | none => { s₁ with statusText := "ダウンロードに失敗しました" }

/-! ## Poll cycles -/

/-- `pollStatus(instanceId)` of src/unnamed/part_000: a non-2xx status
response is silently ignored (`if (!res.ok) return;`), as is any thrown
exception (logged only); on success the progress snapshot is rendered if
present, `Completed` stops polling, auto-downloads (`dlResp` is the
response of that download GET) and shows the success message, `Failed`
stops polling and shows the failure message. -/
def pollStatus₀ (instanceId : String) (resp : FetchOutcome StatusData)
    (dlResp : FetchOutcome (Option String)) (s : UploadState) : UploadState :=
  match resp with
  | .httpError _ => s
  | .exn _ => s
  | .ok data =>
      let s₁ :=
        match data.customStatus with
        | some cs => updateProgress cs s
        | none => s
      let s₂ :=
        if data.runtimeStatus = "Completed" then
          let sa := stopPolling s₁
          let sb := downloadResult instanceId dlResp sa
          { sb with progressDisplay := false,
                    statusText := "✅ 完了しました",
                    uploadBtnDisabled := false }
        else s₁
      if data.runtimeStatus = "Failed" then
        let sa := stopPolling s₂
        { sa with progressDisplay := false,
                  statusText := "❌ 処理に失敗しました",
                  uploadBtnDisabled := false }
      else s₂

/-- The completion message of part_001, with its inline history link. -/
def completedHtml₁ : String :=
  "✅ 完了しました　<a href=\"history.html\" style=\"color: #4CAF50;\">📋 履歴ページでダウンロード</a>"

/-- `pollStatus(instanceId)` of src/unnamed/part_001: a non-2xx status
response is fatal (stop polling, hide progress, show the server error with
the HTTP status code, re-enable submit and the history link), as is a
thrown exception; on success the progress snapshot is rendered if present,
`Completed` stops polling and shows the history link (no auto-download),
`Failed` stops polling and shows the failure message. -/
def pollStatus₁ (instanceId : String) (resp : FetchOutcome StatusData)
    (s : UploadState) : UploadState :=
  match resp with
  | .httpError code =>
      let sa := stopPolling s
      { sa with progressDisplay := false,
                statusText := "❌ サーバーエラー (" ++ toString code ++ ")",
                uploadBtnDisabled := false,
                historyLinkEnabled := true }
  | .exn msg =>
      let sa := stopPolling s
      { sa with progressDisplay := false,
                statusText := "❌ サーバーエラー: " ++ msg,
                uploadBtnDisabled := false,
                historyLinkEnabled := true }
  | .ok data =>
      let s₁ :=
        match data.customStatus with
        | some cs => updateProgress cs s
        | none => s
      let s₂ :=
        if data.runtimeStatus = "Completed" then
          let sa := stopPolling s₁
          { sa with progressDisplay := false,
                    statusText := completedHtml₁,
                    uploadBtnDisabled := false,
                    historyLinkEnabled := true }
        else s₁
      if data.runtimeStatus = "Failed" then
        let sa := stopPolling s₂
        { sa with progressDisplay := false,
                  statusText := "❌ 処理に失敗しました",
                  uploadBtnDisabled := false,
                  historyLinkEnabled := true }
      else s₂

/-! ## Upload submission: diff-mode validation (both uploader variants,
identical code in the `uploadBtn` click handler) -/

/-- The configurable API base URL (local-development value in both
variants). -/
def API_BASE_URL : String := "http://localhost:7071/api"

/-- Number of files selected in each of the three diff-mode file inputs. -/
structure DiffInputs where
  newExcelFiles : Nat
  oldStructuredMd : Nat
  oldTestSpecMd : Nat
  deriving DecidableEq, Repr

/-- What the click handler does up to (and including) the submission fetch:
either it returns early with a validation message and no network request,
or it issues the POST to the given endpoint. -/
inductive SubmitAction where
  | abort (message : String)
  | request (endpoint : String)
  deriving DecidableEq, Repr

/-- The diff-mode branch of the `uploadBtn` click handler: validate the
three file inputs in a fixed order, returning on the first empty slot with
a slot-specific message; only when all three are non-empty is the POST to
`/upload_diff` issued. -/
def uploadClickDiff (inp : DiffInputs) : SubmitAction :=
  if inp.newExcelFiles = 0 then .abort "新版の設計書を選択してください"
  else if inp.oldStructuredMd = 0 then
    .abort "旧版の構造化設計書を選択してください"
  else if inp.oldTestSpecMd = 0 then
    .abort "旧版のテスト仕様書を選択してください"
  else .request (API_BASE_URL ++ "/upload_diff")

/-! ## History pages -/

/-- Token counts optionally attached to a history entry. -/
structure TokenStats where
  total_input_tokens : Nat
  total_output_tokens : Nat
  deriving DecidableEq, Repr

/-- One backend-reported history entry.  `seq_number` is numeric in the
src/unnamed/part_002 variant (the variant whose sort uses it); the
part_001 history variant sorts by `start_time` instead. -/
structure HistoryEntry where
  instanceId : String
  filename : String
  size : Nat
  start_time : Option String
  end_time : Option String
  seq_number : Nat
  token_stats : Option TokenStats
  deriving DecidableEq, Repr

/-- Lexicographic ≤ on character lists, by code point: the order
`localeCompare` induces on the fixed-width ASCII ISO-8601 timestamps the
backend emits. -/
def lexLe : List Char → List Char → Bool
  | [], _ => true
  | _ :: _, [] => false
  | a :: as, b :: bs =>
      if a.toNat < b.toNat then true
      else if b.toNat < a.toNat then false
      else lexLe as bs

/-- Lexicographic ≤ on strings. -/
def strLe (a b : String) : Bool := lexLe a.data b.data

/-- Comparator of the part_001 history variant:
`(b.start_time || '').localeCompare(a.start_time || '')` sorts descending
by the start-time string. -/
def byStartTimeDesc (a b : HistoryEntry) : Bool :=
  strLe (b.start_time.getD "") (a.start_time.getD "")

/-- Comparator of the part_002 variant: `b.seq_number - a.seq_number`
sorts descending by the numeric sequence number. -/
def bySeqDesc (a b : HistoryEntry) : Bool :=
  decide (b.seq_number ≤ a.seq_number)

/-- `loadHistory` of the part_001 history variant, after a successful
fetch: sort the fetched collection descending by `start_time` before the
first render. -/
def loadHistorySortStart (rs : List HistoryEntry) : List HistoryEntry :=
  rs.mergeSort byStartTimeDesc

/-- `loadHistory` of src/unnamed/part_002, after a successful fetch: sort
the fetched collection descending by `seq_number` before the first
render. -/
def loadHistorySortSeq (rs : List HistoryEntry) : List HistoryEntry :=
  rs.mergeSort bySeqDesc

/-- `loadHistory` of src/frontend/history.js, after a successful fetch:
the fetched collection is stored and rendered as received — no sort. -/
def loadHistoryFrontend (rs : List HistoryEntry) : List HistoryEntry := rs

/-- `ITEMS_PER_PAGE` of src/frontend/history.js and part_002. -/
def ITEMS_PER_PAGE : Nat := 5

/-- Module-level state of the paginated history pages. -/
structure HistoryState where
  allResults : List HistoryEntry
  currentPage : Nat
  deriving DecidableEq, Repr

/-- `Math.ceil(len / ITEMS_PER_PAGE)`. -/
def totalPagesOf (len : Nat) : Nat :=
  (len + ITEMS_PER_PAGE - 1) / ITEMS_PER_PAGE

/-- `deleteItem(instanceId)` of src/frontend/history.js and part_002:
without confirmation, nothing happens; a non-2xx DELETE response throws,
is caught, and surfaces an alert with the state unchanged; on success
every entry with the target `instanceId` is filtered out and the current
page is moved to the last page when it fell out of range (the `totalPages
> 0` guard keeps the page untouched when the list became empty).  The
returned `Bool` records whether an alert was shown. -/
def deleteItem (instanceId : String) (confirmed : Bool) (respOk : Bool)
    (s : HistoryState) : HistoryState × Bool :=
  if confirmed = false then (s, false)
  else if respOk = false then (s, true)
  else
    let results := s.allResults.filter (fun e => !(e.instanceId == instanceId))
    let totalPages := totalPagesOf results.length
    let page :=
      if s.currentPage > totalPages ∧ totalPages > 0 then totalPages
      else s.currentPage
    ({ allResults := results, currentPage := page }, false)

/-! ## `formatSize` (src/frontend/history.js and part_002, identical) -/

/-- Render `n` hundredths as a number with exactly two decimal places, as
`toFixed(2)` does. -/
def toFixed2 (num100 : Nat) : String :=
  toString (num100 / 100) ++ "." ++
    (if num100 % 100 < 10 then "0" else "") ++ toString (num100 % 100)

/-- `formatSize(bytes)`: `'-'` for a falsy input (absent or `0`),
otherwise `(bytes / (1024 * 1024)).toFixed(2) + ' MB'`.  `toFixed(2)`
rounds to the nearest hundredth, half away from zero, which on naturals is
`(100 * b + 2^19) / 2^20`. -/
def formatSize (bytes : Option Nat) : String :=
  match bytes with
  | none => "-"
  | some b =>
      if b = 0 then "-"
      else toFixed2 ((100 * b + 524288) / 1048576) ++ " MB"

/-- The spec's own description of `formatSize`, written independently from
its words: `'-'` when zero or absent, otherwise the byte count divided by
1048576 with exactly two decimal places, then `' MB'`. -/
def formatSizeSpec (bytes : Option Nat) : String :=
  match bytes with
  | none => "-"
  | some b =>
      if b = 0 then "-" else
      let hundredths := (100 * b + 524288) / 1048576
      let frac := toString (hundredths % 100)
      let fracPadded := if frac.length = 1 then "0" ++ frac else frac
      toString (hundredths / 100) ++ "." ++ fracPadded ++ " MB"

/-! ## Sample states and inputs -/

/-- The tab-level invariant tying the timer registry to the module-level
handle: the armed interval timers are exactly the one `pollingInterval`
refers to. -/
def TimerInv (s : UploadState) : Prop :=
  s.timers.active = s.pollingInterval.toList

/-- Sample initial state: page just loaded, nothing armed. -/
def initState : UploadState :=
  { pollingInterval := none, currentJobId := none, progressDisplay := false,
    statusText := "", uploadBtnDisabled := false, progressWidth := "",
    progressTextContent := "", historyLinkEnabled := true,
    timers := ⟨[], 0⟩, downloadRequests := [], savedFiles := [] }

/-- Sample mid-job state: one poll timer armed, submission disabled. -/
def pollingState : UploadState :=
  { pollingInterval := some 0, currentJobId := some "job-1",
    progressDisplay := true, statusText := "生成中...",
    uploadBtnDisabled := true, progressWidth := "40%",
    progressTextContent := "処理を開始しています...",
    historyLinkEnabled := false, timers := ⟨[0], 1⟩,
    downloadRequests := [], savedFiles := [] }

/-- An older history entry (smaller start time and sequence number). -/
def entryOld : HistoryEntry :=
  ⟨"id-old", "old.zip", 100, some "2024-01-01T00:00:00", none, 1, none⟩

/-- A newer history entry (larger start time and sequence number). -/
def entryNew : HistoryEntry :=
  ⟨"id-new", "new.zip", 200, some "2024-02-02T00:00:00", none, 2, none⟩

/-- The spec's example `Content-Disposition` header value. -/
def specHeader : String :=
  "attachment; filename*=UTF-8" ++ apos ++ apos ++ "%E4%BB%95%E6%A8%98.zip"

/-- The same header with the actual percent-encoding of `仕様.zip`. -/
def correctHeader : String :=
  "attachment; filename*=UTF-8" ++ apos ++ apos ++ "%E4%BB%95%E6%A7%98.zip"

/-- A six-entry history collection: two pages at five items per page. -/
def histSample : List HistoryEntry :=
  [⟨"a", "a.zip", 1, none, none, 1, none⟩,
   ⟨"b", "b.zip", 1, none, none, 2, none⟩,
   ⟨"c", "c.zip", 1, none, none, 3, none⟩,
   ⟨"d", "d.zip", 1, none, none, 4, none⟩,
   ⟨"e", "e.zip", 1, none, none, 5, none⟩,
   ⟨"f", "f.zip", 1, none, none, 6, none⟩]

/-! ## Helper lemmas -/

theorem stopPolling_pollingInterval (s : UploadState) :
    (stopPolling s).pollingInterval = none := by
  cases hp : s.pollingInterval <;> simp [stopPolling, hp]

theorem stopPolling_timers (s : UploadState) (h : TimerInv s) :
    (stopPolling s).timers.active = [] ∧ TimerInv (stopPolling s) := by
  cases hp : s.pollingInterval with
  | none =>
      simp [TimerInv, hp] at h
      simp [stopPolling, hp, TimerInv, h]
  | some k =>
      simp [TimerInv, hp] at h
      simp [stopPolling, hp, TimerInv, clearIntervalSys, h]

theorem startPolling_timers (s : UploadState) (h : TimerInv s) :
    TimerInv (startPolling s) ∧ (startPolling s).timers.active.length = 1 := by
  obtain ⟨ha, _⟩ := stopPolling_timers s h
  constructor
  · simp [startPolling, setIntervalSys, TimerInv, ha]
  · simp [startPolling, setIntervalSys, ha]

theorem downloadResult_pollingInterval (id : String)
    (dl : FetchOutcome (Option String)) (s : UploadState) :
    (downloadResult id dl s).pollingInterval = s.pollingInterval := by
  cases dl with
  | httpError c => rfl
  | exn m => rfl
  | ok cd => cases hf : downloadFilename cd <;> simp [downloadResult, hf]

theorem downloadResult_timers (id : String)
    (dl : FetchOutcome (Option String)) (s : UploadState) :
    (downloadResult id dl s).timers = s.timers := by
  cases dl with
  | httpError c => rfl
  | exn m => rfl
  | ok cd => cases hf : downloadFilename cd <;> simp [downloadResult, hf]

theorem lexLe_total : ∀ x y, (lexLe x y || lexLe y x) = true := by
  intro x
  induction x with
  | nil => intro y; simp [lexLe]
  | cons a as ih =>
      intro y
      cases y with
      | nil => simp [lexLe]
      | cons b bs =>
          simp only [lexLe]
          by_cases h₁ : a.toNat < b.toNat
          · simp [h₁]
          · by_cases h₂ : b.toNat < a.toNat
            · simp [h₁, h₂]
            · simp [h₁, h₂, ih bs]

theorem lexLe_trans :
    ∀ x y z, lexLe x y = true → lexLe y z = true → lexLe x z = true := by
  intro x
  induction x with
  | nil => intro y z _ _; simp [lexLe]
  | cons a as ih =>
      intro y z hxy hyz
      cases y with
      | nil => simp [lexLe] at hxy
      | cons b bs =>
          cases z with
          | nil => simp [lexLe] at hyz
          | cons c cs =>
              simp only [lexLe] at hxy hyz ⊢
              by_cases hab : a.toNat < b.toNat
              · by_cases hbc : b.toNat < c.toNat
                · simp [show a.toNat < c.toNat by omega]
                · by_cases hcb : c.toNat < b.toNat
                  · simp [hbc, hcb] at hyz
                  · simp [show a.toNat < c.toNat by omega]
              · by_cases hba : b.toNat < a.toNat
                · simp [hab, hba] at hxy
                · by_cases hbc : b.toNat < c.toNat
                  · simp [show a.toNat < c.toNat by omega]
                  · by_cases hcb : c.toNat < b.toNat
                    · simp [hbc, hcb] at hyz
                    · simp [hab, hba] at hxy
                      simp [hbc, hcb] at hyz
                      simp [show ¬ a.toNat < c.toNat by omega,
                            show ¬ c.toNat < a.toNat by omega]
                      exact ih bs cs hxy hyz

/-- The padding branch of `toFixed2` agrees with length-based padding for
all two-digit residues. -/
theorem pad_eq_of_lt_100 : ∀ k < 100,
    ((if k < 10 then "0" else "") ++ toString k) =
      (if (toString k).length = 1 then "0" ++ toString k else toString k) := by
  decide

/-! ## Claims -/

/-- C1, counterexample: in the part_000 variant a non-2xx status response
leaves the state entirely unchanged — polling is not stopped, no
server-error message is shown, the progress UI stays visible and the
submit control stays disabled, refuting the claim for that variant. -/
theorem pollStatus_httpError_not_fatal_in_part000 :
    pollStatus₀ "job-1" (.httpError 500) (.httpError 500) pollingState
      = pollingState ∧
    pollingState.pollingInterval = some 0 ∧
    pollingState.timers.active = [0] ∧
    pollingState.uploadBtnDisabled = true ∧
    pollingState.progressDisplay = true :=
  ⟨rfl, rfl, rfl, rfl, rfl⟩

/-- C1, amended: only the part_001 variant treats a non-2xx poll response
as fatal — it stops polling (timer handle nulled, no timer left active),
hides the progress UI, shows the server-error message containing the HTTP
status code, and re-enables submission; the part_000 variant silently
ignores the response and polling continues unchanged. -/
theorem pollStatus_httpError_policy (id : String) (code : Nat)
    (s : UploadState) (h : TimerInv s) :
    (pollStatus₁ id (.httpError code) s).pollingInterval = none ∧
    (pollStatus₁ id (.httpError code) s).timers.active = [] ∧
    (pollStatus₁ id (.httpError code) s).progressDisplay = false ∧
    (pollStatus₁ id (.httpError code) s).statusText
      = "❌ サーバーエラー (" ++ toString code ++ ")" ∧
    (pollStatus₁ id (.httpError code) s).uploadBtnDisabled = false ∧
    ∀ dl, pollStatus₀ id (.httpError code) dl s = s := by
  obtain ⟨ha, _⟩ := stopPolling_timers s h
  exact ⟨stopPolling_pollingInterval s, ha, rfl, rfl, rfl, fun dl => rfl⟩

/-- C1, witness: a 500 status response during an active poll, in both
variants at a concrete mid-job state. -/
theorem pollStatus_httpError_policy_witness :
    (pollStatus₁ "job-1" (.httpError 500) pollingState).pollingInterval
      = none ∧
    (pollStatus₁ "job-1" (.httpError 500) pollingState).statusText
      = "❌ サーバーエラー (500)" ∧
    (pollStatus₁ "job-1" (.httpError 500) pollingState).uploadBtnDisabled
      = false ∧
    pollStatus₀ "job-1" (.httpError 500) (.httpError 500) pollingState
      = pollingState := by
  have h := pollStatus_httpError_policy "job-1" 500 pollingState rfl
  exact ⟨h.1, h.2.2.2.1, h.2.2.2.2.1, h.2.2.2.2.2 _⟩

/-- C2: `startPolling` cancels any pre-existing timer before arming a new
one: from any state satisfying the one-poller invariant it re-establishes
the invariant with exactly one active timer, and calling it twice in
succession still leaves exactly one active timer. -/
theorem startPolling_one_active_timer (s : UploadState) (h : TimerInv s) :
    TimerInv (startPolling s) ∧
    (startPolling s).timers.active.length = 1 ∧
    (startPolling (startPolling s)).timers.active.length = 1 := by
  obtain ⟨hinv, hlen⟩ := startPolling_timers s h
  exact ⟨hinv, hlen, (startPolling_timers _ hinv).2⟩

/-- C2, witness: from the freshly loaded page state, one and then two
calls of `startPolling` each leave exactly one active timer. -/
theorem startPolling_one_active_timer_witness :
    TimerInv initState ∧
    (startPolling initState).timers.active.length = 1 ∧
    (startPolling (startPolling initState)).timers.active.length = 1 := by
  have h := startPolling_one_active_timer initState rfl
  exact ⟨rfl, h.2.1, h.2.2⟩

/-- C3: on a successful poll response, a terminal `runtimeStatus`
(`Completed` or `Failed`) cancels the poll timer in both uploader
variants so no further status GETs fire; on `Failed` the submit control
is re-enabled and no download request is issued; any other
`runtimeStatus` takes no terminal action — timer, submit control, status
message and download trace are untouched and the loop continues. -/
theorem pollStatus_terminal_transitions (id : String) (data : StatusData)
    (dl : FetchOutcome (Option String)) (s : UploadState)
    (hinv : TimerInv s) :
    ((data.runtimeStatus = "Completed" ∨ data.runtimeStatus = "Failed") →
      (pollStatus₀ id (.ok data) dl s).pollingInterval = none ∧
      (pollStatus₀ id (.ok data) dl s).timers.active = [] ∧
      (pollStatus₁ id (.ok data) s).pollingInterval = none ∧
      (pollStatus₁ id (.ok data) s).timers.active = []) ∧
    (data.runtimeStatus = "Failed" →
      (pollStatus₀ id (.ok data) dl s).uploadBtnDisabled = false ∧
      (pollStatus₀ id (.ok data) dl s).downloadRequests
        = s.downloadRequests ∧
      (pollStatus₁ id (.ok data) s).uploadBtnDisabled = false ∧
      (pollStatus₁ id (.ok data) s).downloadRequests
        = s.downloadRequests) ∧
    (data.runtimeStatus ≠ "Completed" → data.runtimeStatus ≠ "Failed" →
      (pollStatus₀ id (.ok data) dl s).pollingInterval
          = s.pollingInterval ∧
      (pollStatus₀ id (.ok data) dl s).timers = s.timers ∧
      (pollStatus₀ id (.ok data) dl s).uploadBtnDisabled
          = s.uploadBtnDisabled ∧
      (pollStatus₀ id (.ok data) dl s).statusText = s.statusText ∧
      (pollStatus₀ id (.ok data) dl s).downloadRequests
          = s.downloadRequests ∧
      (pollStatus₁ id (.ok data) s).pollingInterval = s.pollingInterval ∧
      (pollStatus₁ id (.ok data) s).timers = s.timers ∧
      (pollStatus₁ id (.ok data) s).uploadBtnDisabled
          = s.uploadBtnDisabled ∧
      (pollStatus₁ id (.ok data) s).statusText = s.statusText ∧
      (pollStatus₁ id (.ok data) s).downloadRequests
          = s.downloadRequests) := by
  have hCF : ("Completed" : String) ≠ "Failed" := by decide
  cases hp : s.pollingInterval with
  | none =>
      have ha : s.timers.active = [] := by simpa [TimerInv, hp] using hinv
      cases hcs : data.customStatus with
      | none =>
          by_cases hC : data.runtimeStatus = "Completed"
          · have hF : ¬ data.runtimeStatus = "Failed" := by
              rw [hC]; exact hCF
            simp [pollStatus₀, pollStatus₁, hcs, hC, hF, stopPolling, hp, ha,
              downloadResult_pollingInterval, downloadResult_timers, hCF]
          · by_cases hF : data.runtimeStatus = "Failed"
            · simp [pollStatus₀, pollStatus₁, hcs, hC, hF, stopPolling, hp,
                ha]
            · simp [pollStatus₀, pollStatus₁, hcs, hC, hF, hp]
      | some cs =>
          by_cases hC : data.runtimeStatus = "Completed"
          · have hF : ¬ data.runtimeStatus = "Failed" := by
              rw [hC]; exact hCF
            simp [pollStatus₀, pollStatus₁, hcs, hC, hF, stopPolling, hp, ha,
              updateProgress, downloadResult_pollingInterval,
              downloadResult_timers]
          · by_cases hF : data.runtimeStatus = "Failed"
            · simp [pollStatus₀, pollStatus₁, hcs, hC, hF, stopPolling, hp,
                ha, updateProgress]
            · simp [pollStatus₀, pollStatus₁, hcs, hC, hF, updateProgress,
                hp]
  | some k =>
      have ha : s.timers.active = [k] := by simpa [TimerInv, hp] using hinv
      cases hcs : data.customStatus with
      | none =>
          by_cases hC : data.runtimeStatus = "Completed"
          · have hF : ¬ data.runtimeStatus = "Failed" := by
              rw [hC]; exact hCF
            simp [pollStatus₀, pollStatus₁, hcs, hC, hF, stopPolling, hp, ha,
              clearIntervalSys, downloadResult_pollingInterval,
              downloadResult_timers]
          · by_cases hF : data.runtimeStatus = "Failed"
            · simp [pollStatus₀, pollStatus₁, hcs, hC, hF, stopPolling, hp,
                ha, clearIntervalSys]
            · simp [pollStatus₀, pollStatus₁, hcs, hC, hF, hp]
      | some cs =>
          by_cases hC : data.runtimeStatus = "Completed"
          · have hF : ¬ data.runtimeStatus = "Failed" := by
              rw [hC]; exact hCF
            simp [pollStatus₀, pollStatus₁, hcs, hC, hF, stopPolling, hp, ha,
              clearIntervalSys, updateProgress,
              downloadResult_pollingInterval, downloadResult_timers]
          · by_cases hF : data.runtimeStatus = "Failed"
            · simp [pollStatus₀, pollStatus₁, hcs, hC, hF, stopPolling, hp,
                ha, clearIntervalSys, updateProgress]
            · simp [pollStatus₀, pollStatus₁, hcs, hC, hF, updateProgress,
                hp]

/-- C3, witness: a `Failed` poll response at a concrete mid-job state
stops polling, re-enables submission and issues no download request, in
both variants. -/
theorem pollStatus_terminal_transitions_witness :
    (pollStatus₀ "job-1" (.ok ⟨"Failed", none⟩) (.httpError 500)
        pollingState).pollingInterval = none ∧
    (pollStatus₀ "job-1" (.ok ⟨"Failed", none⟩) (.httpError 500)
        pollingState).uploadBtnDisabled = false ∧
    (pollStatus₀ "job-1" (.ok ⟨"Failed", none⟩) (.httpError 500)
        pollingState).downloadRequests = [] ∧
    (pollStatus₁ "job-1" (.ok ⟨"Failed", none⟩)
        pollingState).pollingInterval = none ∧
    (pollStatus₁ "job-1" (.ok ⟨"Failed", none⟩)
        pollingState).uploadBtnDisabled = false := by
  have h := pollStatus_terminal_transitions "job-1" ⟨"Failed", none⟩
    (.httpError 500) pollingState rfl
  have h1 := h.1 (Or.inr rfl)
  have h2 := h.2.1 rfl
  exact ⟨h1.1, h2.1, h2.2.1, h1.2.2.1, h2.2.2.1⟩

/-- C4: a diff-mode submission with any required slot empty issues no
network request, and the validation message is the one of the first empty
slot in the fixed order (new-version files, then old structured document,
then old test specification). -/
theorem uploadClickDiff_first_missing_slot (inp : DiffInputs)
    (h : inp.newExcelFiles = 0 ∨ inp.oldStructuredMd = 0 ∨
      inp.oldTestSpecMd = 0) :
    uploadClickDiff inp =
      .abort (if inp.newExcelFiles = 0 then "新版の設計書を選択してください"
        else if inp.oldStructuredMd = 0 then
          "旧版の構造化設計書を選択してください"
        else "旧版のテスト仕様書を選択してください") ∧
    ∀ ep, uploadClickDiff inp ≠ .request ep := by
  by_cases h₁ : inp.newExcelFiles = 0 <;>
    by_cases h₂ : inp.oldStructuredMd = 0 <;>
      by_cases h₃ : inp.oldTestSpecMd = 0 <;>
        simp [uploadClickDiff, h₁, h₂, h₃] <;>
          tauto

/-- C4, witness: a diff-mode submission with new-version files selected
but no old structured document aborts with the old-structured message. -/
theorem uploadClickDiff_first_missing_slot_witness :
    uploadClickDiff ⟨2, 0, 1⟩ =
      .abort "旧版の構造化設計書を選択してください" ∧
    ∀ ep, uploadClickDiff ⟨2, 0, 1⟩ ≠ .request ep := by
  have h := uploadClickDiff_first_missing_slot ⟨2, 0, 1⟩
    (Or.inr (Or.inl rfl))
  exact ⟨h.1, h.2⟩

/-- C5, counterexample: the src/frontend/history.js variant of
`loadHistory` renders the fetched collection as received, so a
server-ordered oldest-first collection reaches the first render unsorted
under either recency key — the claim is false for that variant. -/
theorem loadHistoryFrontend_not_sorted :
    loadHistoryFrontend [entryOld, entryNew] = [entryOld, entryNew] ∧
    ¬ List.Pairwise (fun a b => byStartTimeDesc a b = true)
        [entryOld, entryNew] ∧
    ¬ List.Pairwise (fun a b => bySeqDesc a b = true)
        [entryOld, entryNew] := by
  decide

/-- C5, amended: in the two variants that sort (`start_time` lexicographic
descending in the part_001 history script, numeric `seq_number` descending
in part_002), `loadHistory` leaves the in-memory collection sorted
newest-first before the first render; the src/frontend/history.js variant
performs no sort and renders the collection in server order. -/
theorem loadHistory_sorted_variants : ∀ rs : List HistoryEntry,
    List.Pairwise (fun a b => byStartTimeDesc a b = true)
      (loadHistorySortStart rs) ∧
    List.Pairwise (fun a b => bySeqDesc a b = true)
      (loadHistorySortSeq rs) := by
  intro rs
  constructor
  · exact @List.sorted_mergeSort HistoryEntry byStartTimeDesc
      (fun a b c h₁ h₂ => lexLe_trans _ _ _ h₂ h₁)
      (fun a b => lexLe_total _ _)
      rs
  · exact @List.sorted_mergeSort HistoryEntry bySeqDesc
      (by intro a b c h₁ h₂
          simp only [bySeqDesc, decide_eq_true_eq] at *
          omega)
      (by intro a b
          simp only [bySeqDesc, Bool.or_eq_true, decide_eq_true_eq]
          omega)
      rs

/-- C6, counterexample: the claim's example header percent-decodes to
`仕樘.zip` (U+6A18), not `仕様.zip` (U+69D8) — `%E6%A8%98` is the UTF-8
encoding of `樘`, while `様` encodes as `%E6%A7%98`. -/
theorem downloadFilename_spec_example_decodes_differently :
    downloadFilename (some specHeader) = some "仕樘.zip" ∧
    downloadFilename (some specHeader) ≠ some "仕様.zip" := by
  decide

/-- C6, amended: the save filename comes from matching the
`Content-Disposition` header against the extended-value pattern and
percent-decoding the capture; an absent or non-matching header yields the
fixed default; the claim's example header yields `仕樘.zip`, while the
actual encoding of `仕様.zip`, namely the `%E4%BB%95%E6%A7%98.zip`
header, yields `仕様.zip`. -/
theorem downloadFilename_content_disposition :
    downloadFilename none = some defaultFilename ∧
    (∀ h, extractCapture h = none →
      downloadFilename (some h) = some defaultFilename) ∧
    (∀ h cap, extractCapture h = some cap →
      downloadFilename (some h) = decodeURIComponent cap) ∧
    downloadFilename (some specHeader) = some "仕樘.zip" ∧
    downloadFilename (some correctHeader) = some "仕様.zip" := by
  refine ⟨rfl, ?_, ?_, by decide, by decide⟩
  · intro h hn; simp [downloadFilename, hn]
  · intro h cap hc; simp [downloadFilename, hc]

/-- C6, witness: a header without the pattern falls back to the default
name, and the example header's capture group is what gets decoded. -/
theorem downloadFilename_content_disposition_witness :
    downloadFilename (some "attachment") = some defaultFilename ∧
    downloadFilename (some specHeader)
      = decodeURIComponent "%E4%BB%95%E6%A8%98.zip" := by
  have h := downloadFilename_content_disposition
  refine ⟨h.2.1 "attachment" (by decide), ?_⟩
  exact h.2.2.1 specHeader "%E4%BB%95%E6%A8%98.zip" (by decide)

/-- C7: a confirmed delete whose DELETE request fails surfaces an alert
and leaves the collection and page untouched; a successful one removes
every entry with the target `instanceId`, shows no alert, and clamps the
current page down to the last page exactly when it exceeded the new page
count (and that count is positive). -/
theorem deleteItem_delete_flow (id : String) (s : HistoryState) :
    (deleteItem id true false s = (s, true)) ∧
    ((deleteItem id true true s).2 = false) ∧
    ((deleteItem id true true s).1.allResults
      = s.allResults.filter (fun e => !(e.instanceId == id))) ∧
    (∀ e ∈ (deleteItem id true true s).1.allResults,
      e.instanceId ≠ id) ∧
    (s.currentPage > totalPagesOf (s.allResults.filter
        (fun e => !(e.instanceId == id))).length →
      0 < totalPagesOf (s.allResults.filter
        (fun e => !(e.instanceId == id))).length →
      (deleteItem id true true s).1.currentPage
        = totalPagesOf (s.allResults.filter
            (fun e => !(e.instanceId == id))).length) ∧
    (s.currentPage ≤ totalPagesOf (s.allResults.filter
        (fun e => !(e.instanceId == id))).length →
      (deleteItem id true true s).1.currentPage = s.currentPage) := by
  refine ⟨rfl, rfl, rfl, ?_, ?_, ?_⟩
  · intro e he
    simp only [deleteItem, if_neg (by decide : ¬ (true = false))] at he
    simp [List.mem_filter] at he
    exact he.2
  · intro h₁ h₂
    simp only [deleteItem]
    rw [if_neg (by decide : ¬ (true = false)),
      if_neg (by decide : ¬ (true = false))]
    simp only []
    rw [if_pos ⟨h₁, h₂⟩]
  · intro hle
    simp only [deleteItem]
    rw [if_neg (by decide : ¬ (true = false)),
      if_neg (by decide : ¬ (true = false))]
    simp only []
    rw [if_neg (by omega : ¬ (s.currentPage > totalPagesOf
      (s.allResults.filter (fun e => !(e.instanceId == id))).length ∧
      0 < totalPagesOf (s.allResults.filter
        (fun e => !(e.instanceId == id))).length))]

/-- C7, witness: deleting the single entry of page 2 from a six-entry
collection leaves five entries and clamps the page from 2 to 1; the same
delete with a failed request changes nothing and alerts. -/
theorem deleteItem_delete_flow_witness :
    deleteItem "f" true false ⟨histSample, 2⟩ = (⟨histSample, 2⟩, true) ∧
    (deleteItem "f" true true ⟨histSample, 2⟩).1.allResults.length = 5 ∧
    (deleteItem "f" true true ⟨histSample, 2⟩).1.currentPage = 1 := by
  have h := deleteItem_delete_flow "f" ⟨histSample, 2⟩
  refine ⟨h.1, ?_, ?_⟩
  · rw [h.2.2.1]; decide
  · have hc := h.2.2.2.2.1 (by decide) (by decide)
    rw [hc]; decide

/-- C8: `updateProgress` sets the bar width to exactly `progress` percent
with no clamping, renders the label from the fixed five-entry stage table
with fallback to the raw message for unmapped stages, and renders the
text as the label followed by the parenthesised percentage. -/
theorem updateProgress_render (s : UploadState) (stage message : String)
    (p : Int) :
    (updateProgress ⟨stage, message, p⟩ s).progressWidth
      = toString p ++ "%" ∧
    (∀ label, lookupStage stage = some label → label ≠ "" →
      (updateProgress ⟨stage, message, p⟩ s).progressTextContent
        = label ++ " (" ++ toString p ++ "%)") ∧
    (lookupStage stage = none →
      (updateProgress ⟨stage, message, p⟩ s).progressTextContent
        = message ++ " (" ++ toString p ++ "%)") ∧
    lookupStage "structuring" = some "📄 設計書を構造化中..." ∧
    lookupStage "diff" = some "🔍 差分を検知中..." ∧
    lookupStage "perspectives" = some "💡 テスト観点を抽出中..." ∧
    lookupStage "testspec" = some "📝 テスト仕様書を生成中..." ∧
    lookupStage "converting" = some "🔄 成果物を変換中..." := by
  refine ⟨rfl, ?_, ?_, by decide, by decide, by decide, by decide,
    by decide⟩
  · intro label hl hne
    simp [updateProgress, hl, hne]
  · intro hn
    simp [updateProgress, hn]

/-- C8, witness: an out-of-range progress of 150 passes through
uncorrected with an unmapped stage falling back to the raw message, and a
mapped stage uses its table label. -/
theorem updateProgress_render_witness :
    (updateProgress ⟨"zzz", "raw message", 150⟩ initState).progressWidth
      = "150%" ∧
    (updateProgress ⟨"zzz", "raw message", 150⟩
        initState).progressTextContent = "raw message (150%)" ∧
    (updateProgress ⟨"structuring", "m", 40⟩ initState).progressTextContent
      = "📄 設計書を構造化中... (40%)" := by
  have h₁ := updateProgress_render initState "zzz" "raw message" 150
  have h₂ := updateProgress_render initState "structuring" "m" 40
  exact ⟨h₁.1, h₁.2.2.1 (by decide),
    h₂.2.1 "📄 設計書を構造化中..." (by decide) (by decide)⟩

/-- C9: `formatSize` yields `"-"` for an absent and for a zero byte
count, `"1.00 MB"` at 1048576 bytes, and in general agrees with the
spec's description — the byte count divided by 1048576 rendered with
exactly two decimal places, followed by `" MB"`. -/
theorem formatSize_behavior :
    formatSize none = "-" ∧
    formatSize (some 0) = "-" ∧
    formatSize (some 1048576) = "1.00 MB" ∧
    ∀ b, formatSize b = formatSizeSpec b := by
  refine ⟨rfl, rfl, by decide, ?_⟩
  intro b
  match b with
  | none => rfl
  | some n =>
      simp only [formatSize, formatSizeSpec, toFixed2]
      by_cases h0 : n = 0
      · simp [h0]
      · rw [if_neg h0, if_neg h0]
        have h : (100 * n + 524288) / 1048576 % 100 < 100 :=
          Nat.mod_lt _ (by omega)
        have hpad := pad_eq_of_lt_100 _ h
        refine congrArg (fun x => x ++ " MB") ?_
        rw [String.append_assoc, hpad]

/-- C10: `stopPolling` modifies only the poll-timer handle (cleared and
set to null); `currentJobId` and every other module-level and UI location
are left unchanged, whether or not a timer was armed. -/
theorem stopPolling_frame_condition (s : UploadState) :
    (stopPolling s).pollingInterval = none ∧
    (stopPolling s).currentJobId = s.currentJobId ∧
    (stopPolling s).progressDisplay = s.progressDisplay ∧
    (stopPolling s).statusText = s.statusText ∧
    (stopPolling s).uploadBtnDisabled = s.uploadBtnDisabled ∧
    (stopPolling s).progressWidth = s.progressWidth ∧
    (stopPolling s).progressTextContent = s.progressTextContent ∧
    (stopPolling s).historyLinkEnabled = s.historyLinkEnabled ∧
    (stopPolling s).downloadRequests = s.downloadRequests ∧
    (stopPolling s).savedFiles = s.savedFiles := by
  cases hp : s.pollingInterval <;> simp [stopPolling, hp]

end Spec2Proof
